import Mathlib

/- Shallow embedding of the authorization and session store of the Dash
   analytics dashboard, translated from app/auth.py, app/config.py and
   app/dashboards/admin_panel/services.py.

   Python dictionaries are modelled as association lists, the GCS blob store
   and the module-level mutable globals (the users cache, the in-memory
   session fallback map and the local audit log) as fields of an `AuthState`
   record.  Each top-level operation takes the pre-state and the current
   clock value and returns its results together with the post-state; a
   single operation is modelled as instantaneous, so every clock read inside
   one Python call is the same `now`.  The dict returned by `get_users_db`
   is, in the source, the very object stored in the users cache, so the
   embedding writes every in-place mutation of that dict back into the
   cache field of the state before any return, including failing returns. -/

-- Association-list primitives standing for the Python dict operations
-- (lookup, item assignment, `del`).

def getKey {α : Type} : List (String × α) → String → Option α
  | [], _ => none
  | (k, v) :: rest, key => if k = key then some v else getKey rest key

def setKey {α : Type} : List (String × α) → String → α → List (String × α)
  | [], key, v => [(key, v)]
  | (k, w) :: rest, key, v =>
      if k = key then (key, v) :: rest else (k, w) :: setKey rest key v

def delKey {α : Type} (l : List (String × α)) (key : String) : List (String × α) :=
  l.filter (fun p => p.1 ≠ key)

-- Python truthiness of an optional string argument (`if password:`).
def truthyStr : Option String → Bool
  | some x => decide (x ≠ "")
  | none => false

-- The `dashboards` field is either the literal marker "all" or a list of ids.
inductive Dashboards where
  | all : Dashboards
  | list : List String → Dashboards
deriving DecidableEq

abbrev AppAccess := List (String × List String)

-- Python truthiness of an optional app_access dict (`if app_access and ...`).
def truthyAA : Option AppAccess → Bool
  | some l => decide (l ≠ [])
  | none => false

/- A user-directory record.  The metadata fields are optional because the
   legacy auth.py paths create records without them (`dict.get` defaults
   apply on read). -/
structure User where
  password : String
  role : String
  name : String
  dashboards : Dashboards
  app_access : AppAccess
  is_active : Option Bool := none
  created_at : Option Nat := none
  created_by : Option String := none
  updated_at : Option Nat := none
  updated_by : Option String := none
  last_login : Option String := none
deriving DecidableEq

abbrev Directory := List (String × User)

structure UserSnapshot where
  username : String
  role : String
  name : String
  dashboards : Dashboards
  app_access : AppAccess
deriving DecidableEq

structure SessionRecord where
  session_id : String
  user : UserSnapshot
  authenticated : Bool
  created_at : Nat
  expires_at : Option Nat
  remember_me : Bool
deriving DecidableEq

structure AuditEntry where
  id : Nat
  actor_user_id : String
  action : String
  target_user_id : String
  timestamp : Nat
  metadata : List (String × String)
deriving DecidableEq

-- app/config.py constants used by the store.
def SESSION_TTL_DEFAULT : Nat := 86400
def SESSION_TTL_REMEMBER : Nat := 2592000

def DEFAULT_USERS : Directory :=
  [ ("admin",
     { password := "admin123", role := "super_admin", name := "Administrator",
       dashboards := Dashboards.all, app_access := [] }),
    ("viewer",
     { password := "viewer123", role := "readonly", name := "Viewer User",
       dashboards := Dashboards.list ["icarus_historical"], app_access := [] }) ]

/- The mutable world of auth.py and services.py: the users cache (two
   separately optional fields, as in the source), the GCS bucket (a single
   availability flag plus the stored documents) and the in-memory fallback
   maps. -/
structure AuthState where
  cacheData : Option Directory
  cacheLoadedAt : Option Nat
  gcsAvailable : Bool
  gcsUsers : Option Directory
  gcsSessions : List (String × SessionRecord)
  memSessions : List (String × SessionRecord)
  gcsAuditLog : Option (List AuditEntry)
  localAuditLog : List AuditEntry
deriving DecidableEq

-- =========================================================================
-- GCS adapter (fail-soft: unavailable store degrades to none / false).
-- =========================================================================

def load_users_from_gcs (s : AuthState) : Option Directory :=
  if s.gcsAvailable then s.gcsUsers else none

def save_users_to_gcs (s : AuthState) (users : Directory) : AuthState × Bool :=
  if s.gcsAvailable then ({ s with gcsUsers := some users }, true) else (s, false)

-- =========================================================================
-- User directory manager.  The third component of the result records
-- whether the durable store was consulted (the observable "mock call
-- count" of the spec's cache-freshness property).
-- =========================================================================

def get_users_db_load (s : AuthState) (now : Nat) : Directory × AuthState × Bool :=
  match load_users_from_gcs s with
  | some users =>
      (users, { s with cacheData := some users, cacheLoadedAt := some now }, true)
  | none =>
      let users := DEFAULT_USERS
      let s1 := (save_users_to_gcs s users).1
      (users, { s1 with cacheData := some users, cacheLoadedAt := some now }, true)

def get_users_db (s : AuthState) (now : Nat) : Directory × AuthState × Bool :=
  match s.cacheData, s.cacheLoadedAt with
  | some d, some t =>
      if now - t < 300 then (d, s, false) else get_users_db_load s now
  | _, _ => get_users_db_load s now

def update_users_db (s : AuthState) (users : Directory) (now : Nat) : AuthState :=
  let s1 := { s with cacheData := some users, cacheLoadedAt := some now }
  (save_users_to_gcs s1 users).1

-- =========================================================================
-- Session storage (GCS-backed with in-memory fallback).
-- =========================================================================

def delete_session_from_gcs (s : AuthState) (session_id : String) : AuthState × Bool :=
  if s.gcsAvailable then
    ({ s with gcsSessions := delKey s.gcsSessions session_id }, true)
  else
    ({ s with memSessions := delKey s.memSessions session_id }, true)

def load_session_from_gcs (s : AuthState) (now : Nat) (session_id : String) :
    Option SessionRecord × AuthState :=
  if s.gcsAvailable then
    match getKey s.gcsSessions session_id with
    | none => (none, s)
    | some data =>
        match data.expires_at with
        | some e =>
            if now > e then (none, (delete_session_from_gcs s session_id).1)
            else (some data, s)
        | none => (some data, s)
  else
    match getKey s.memSessions session_id with
    | none => (none, s)
    | some data =>
        match data.expires_at with
        | some e =>
            if now > e then (none, (delete_session_from_gcs s session_id).1)
            else (some data, s)
        | none => (some data, s)

def save_session_to_gcs (s : AuthState) (session_id : String) (data : SessionRecord) :
    AuthState × Bool :=
  if s.gcsAvailable then
    ({ s with gcsSessions := setKey s.gcsSessions session_id data }, true)
  else
    ({ s with memSessions := setKey s.memSessions session_id data }, true)

-- =========================================================================
-- Session lifecycle.  uuid4 generation is modelled by passing the fresh
-- session id as an argument.
-- =========================================================================

def create_session (s : AuthState) (now : Nat) (session_id : String)
    (user_data : UserSnapshot) (remember_me : Bool) : (String × Nat) × AuthState :=
  let ttl := if remember_me then SESSION_TTL_REMEMBER else SESSION_TTL_DEFAULT
  let expires_at := now + ttl
  let data : SessionRecord :=
    { session_id := session_id, user := user_data, authenticated := true,
      created_at := now, expires_at := some expires_at, remember_me := remember_me }
  let s1 := (save_session_to_gcs s session_id data).1
  ((session_id, expires_at), s1)

def authenticate (s : AuthState) (now : Nat) (new_session_id : String)
    (username password : String) (remember_me : Bool) :
    (Bool × Option String × Option Nat) × AuthState :=
  let g := get_users_db s now
  match getKey g.1 username with
  | some u =>
      if u.password = password then
        let user_data : UserSnapshot :=
          { username := username, role := u.role, name := u.name,
            dashboards := u.dashboards, app_access := u.app_access }
        let c := create_session g.2.1 now new_session_id user_data remember_me
        ((true, some c.1.1, some c.1.2), c.2)
      else ((false, none, none), g.2.1)
  | none => ((false, none, none), g.2.1)

def get_session_data (s : AuthState) (now : Nat) (session_id : String) :
    Option SessionRecord × AuthState :=
  if session_id = "" then (none, s)
  else load_session_from_gcs s now session_id

def logout (s : AuthState) (session_id : String) : AuthState :=
  if session_id = "" then s else (delete_session_from_gcs s session_id).1

def is_authenticated (s : AuthState) (now : Nat) (session_id : String) :
    Bool × AuthState :=
  let r := get_session_data s now session_id
  match r.1 with
  | some data => (data.authenticated, r.2)
  | none => (false, r.2)

def get_current_user (s : AuthState) (now : Nat) (session_id : String) :
    Option UserSnapshot × AuthState :=
  let r := get_session_data s now session_id
  match r.1 with
  | some data => (some data.user, r.2)
  | none => (none, r.2)

-- =========================================================================
-- App access.
-- =========================================================================

def get_user_allowed_apps (user : Option UserSnapshot) (dashboard_id : String) :
    Option (List String) :=
  match user with
  | none => some []
  | some u =>
      if u.role = "admin" ∨ u.role = "super_admin" then none
      else if u.app_access = [] then none
      else
        match getKey u.app_access dashboard_id with
        | none => none
        | some apps => some apps

-- =========================================================================
-- Legacy admin functions (auth.py).
-- =========================================================================

def add_user (s : AuthState) (now : Nat) (user_id password role name : String)
    (dashboards : Dashboards) (app_access : Option AppAccess) :
    Bool × String × AuthState :=
  let g := get_users_db s now
  let users := g.1
  let s1 := g.2.1
  if (getKey users user_id).isSome then (false, "User ID already exists", s1)
  else if role = "super_admin" then (false, "Cannot create Super Admin users", s1)
  else
    let newUser : User :=
      { password := password, role := role, name := name,
        dashboards := if role = "readonly" then dashboards else Dashboards.all,
        app_access :=
          if truthyAA app_access ∧ role = "readonly" then app_access.getD [] else [] }
    let users2 := setKey users user_id newUser
    (true, "User created successfully", update_users_db s1 users2 now)

def update_user (s : AuthState) (now : Nat) (user_id : String)
    (password role name : Option String) (dashboards : Option Dashboards)
    (app_access : Option AppAccess) : Bool × String × AuthState :=
  let g := get_users_db s now
  let users := g.1
  let s1 := g.2.1
  match getKey users user_id with
  | none => (false, "User not found", s1)
  | some u0 =>
      let u1 := if truthyStr password then { u0 with password := password.getD "" } else u0
      let u2 :=
        if truthyStr role then
          if role.getD "" = "admin" ∨ role.getD "" = "super_admin" then
            { u1 with role := role.getD "", dashboards := Dashboards.all, app_access := [] }
          else { u1 with role := role.getD "" }
        else u1
      let u3 := if truthyStr name then { u2 with name := name.getD "" } else u2
      let u4 :=
        if dashboards.isSome ∧ u3.role = "readonly" then
          { u3 with dashboards := dashboards.getD Dashboards.all }
        else u3
      let u5 :=
        if app_access.isSome ∧ u4.role = "readonly" then
          { u4 with app_access := app_access.getD [] }
        else u4
      let users2 := setKey users user_id u5
      (true, "User updated successfully", update_users_db s1 users2 now)

-- =========================================================================
-- Admin panel services (services.py): audit log and audited mutations.
-- =========================================================================

def get_audit_log (s : AuthState) : List AuditEntry :=
  if s.gcsAvailable then s.gcsAuditLog.getD [] else s.localAuditLog

def save_audit_log (s : AuthState) (entries : List AuditEntry) : AuthState × Bool :=
  if s.gcsAvailable then ({ s with gcsAuditLog := some entries }, true)
  else ({ s with localAuditLog := entries }, true)

def log_audit_action (s : AuthState) (now : Nat)
    (actor_user_id action target_user_id : String)
    (metadata : List (String × String)) : AuthState :=
  let log := get_audit_log s
  let entry : AuditEntry :=
    { id := log.length + 1, actor_user_id := actor_user_id, action := action,
      target_user_id := target_user_id, timestamp := now, metadata := metadata }
  let entries := log ++ [entry]
  let entries2 :=
    if entries.length > 500 then entries.drop (entries.length - 500) else entries
  (save_audit_log s entries2).1

def count_active_super_admins (users : Directory) : Nat :=
  users.countP (fun p => decide (p.2.role = "super_admin" ∧ p.2.is_active.getD true = true))

def create_user (s : AuthState) (now : Nat)
    (actor_user_id user_id password role name : String)
    (dashboards : Dashboards) (app_access : Option AppAccess) :
    Bool × String × AuthState :=
  let g := get_users_db s now
  let users := g.1
  let s1 := g.2.1
  if (getKey users user_id).isSome then (false, "User ID already exists", s1)
  else if role = "super_admin" then (false, "Cannot create Super Admin users", s1)
  else
    let newUser : User :=
      { password := password, role := role, name := name,
        dashboards := if role = "readonly" then dashboards else Dashboards.all,
        app_access :=
          if truthyAA app_access ∧ role = "readonly" then app_access.getD [] else [],
        is_active := some true,
        created_at := some now, created_by := some actor_user_id,
        updated_at := some now, updated_by := some actor_user_id,
        last_login := some "" }
    let users2 := setKey users user_id newUser
    let s2 := update_users_db s1 users2 now
    let s3 := log_audit_action s2 now actor_user_id "CREATE_USER" user_id [("role", role)]
    (true, "User created successfully", s3)

/- edit_user from services.py, split at its phase boundaries purely for
   proof modularity: the security checks, then the password phase with the
   last-super-admin guard (edit_user_apply), then the committing phase
   after the guard (edit_user_commit).  In the source the `users` dict
   aliases the cache, so the password assignment that precedes the
   last-super-admin guard is visible in the cache even when that guard
   fails; the failing return therefore carries the partially mutated
   directory in cacheData. -/
def edit_user_commit (s1 : AuthState) (now : Nat)
    (actor_user_id user_id : String)
    (role name : Option String)
    (dashboards : Option Dashboards) (app_access : Option AppAccess)
    (users : Directory) (target_role : String) (u1 : User) (pwChanged : Bool) :
    Bool × String × AuthState :=
  let roleChange := truthyStr role ∧ role.getD "" ≠ target_role
  let newRole := role.getD ""
  let u2 :=
    if roleChange then
      if newRole = "admin" ∨ newRole = "super_admin" then
        { u1 with role := newRole, dashboards := Dashboards.all, app_access := [] }
      else { u1 with role := newRole }
    else u1
  let nameChange := truthyStr name ∧ name.getD "" ≠ u2.name
  let u3 := if nameChange then { u2 with name := name.getD "" } else u2
  let dashChange := dashboards.isSome ∧ u3.role = "readonly"
  let u4 := if dashChange then { u3 with dashboards := dashboards.getD Dashboards.all } else u3
  let aaChange := app_access.isSome ∧ u4.role = "readonly"
  let u5 := if aaChange then { u4 with app_access := app_access.getD [] } else u4
  let u6 := { u5 with updated_at := some now, updated_by := some actor_user_id }
  let users2 := setKey users user_id u6
  let s2 := update_users_db s1 users2 now
  let changes : List (String × String) :=
    (if pwChanged then [("password", "changed")] else [])
    ++ (if roleChange then [("role", target_role ++ " to " ++ newRole)] else [])
    ++ (if nameChange then [("name", name.getD "")] else [])
    ++ (if dashChange then [("dashboards", "updated")] else [])
    ++ (if aaChange then [("app_access", "updated")] else [])
  let s3 :=
    if changes = [] then s2
    else log_audit_action s2 now actor_user_id "UPDATE_USER" user_id changes
  (true, "User updated successfully", s3)

def edit_user_apply (s1 : AuthState) (now : Nat)
    (actor_user_id user_id : String)
    (password role name : Option String)
    (dashboards : Option Dashboards) (app_access : Option AppAccess)
    (users : Directory) (target : User) : Bool × String × AuthState :=
  let target_role := target.role
  let pwChange := truthyStr password ∧ password.getD "" ≠ target.password
  let u1 := if pwChange then { target with password := password.getD "" } else target
  let users1 := if pwChange then setKey users user_id u1 else users
  let roleChange := truthyStr role ∧ role.getD "" ≠ target_role
  if roleChange ∧ target_role = "super_admin" ∧
      count_active_super_admins users1 ≤ 1 then
    (false, "Cannot change role of last Super Admin", { s1 with cacheData := some users1 })
  else
    edit_user_commit s1 now actor_user_id user_id role name dashboards app_access
      users target_role u1 (decide pwChange)

def edit_user (s : AuthState) (now : Nat)
    (actor_user_id actor_role user_id : String)
    (password role name : Option String)
    (dashboards : Option Dashboards)
    (app_access : Option AppAccess) : Bool × String × AuthState :=
  let g := get_users_db s now
  let users := g.1
  let s1 := g.2.1
  match getKey users user_id with
  | none => (false, "User not found", s1)
  | some target =>
      let target_role := target.role
      if target_role = "super_admin" ∧ actor_user_id ≠ user_id then
        (false, "Super Admin cannot be edited", s1)
      else if actor_role = "admin" ∧ target_role ≠ "readonly" then
        (false, "You can only edit Read Only users", s1)
      else if truthyStr role ∧ role.getD "" ≠ target_role ∧ actor_role = "admin" ∧
              role.getD "" ≠ "readonly" then
        (false, "You can only assign Read Only role", s1)
      else if truthyStr role ∧ role.getD "" ≠ target_role ∧ role.getD "" = "super_admin" then
        (false, "Cannot escalate to Super Admin", s1)
      else
        edit_user_apply s1 now actor_user_id user_id password role name dashboards
          app_access users target

def soft_delete_user (s : AuthState) (now : Nat)
    (actor_user_id actor_role user_id : String) : Bool × String × AuthState :=
  let g := get_users_db s now
  let users := g.1
  let s1 := g.2.1
  match getKey users user_id with
  | none => (false, "User not found", s1)
  | some u =>
      if u.role = "super_admin" then (false, "Super Admin cannot be deleted", s1)
      else if actor_role ≠ "super_admin" then (false, "Only Super Admin can delete users", s1)
      else if actor_user_id = user_id then (false, "Cannot delete yourself", s1)
      else
        let u2 := { u with is_active := some false,
                           updated_at := some now, updated_by := some actor_user_id }
        let users2 := setKey users user_id u2
        let s2 := update_users_db s1 users2 now
        let s3 := log_audit_action s2 now actor_user_id "DELETE_USER" user_id []
        (true, "User deleted successfully", s3)

def toggle_user_status (s : AuthState) (now : Nat)
    (actor_user_id actor_role user_id : String) : Bool × String × AuthState :=
  let g := get_users_db s now
  let users := g.1
  let s1 := g.2.1
  match getKey users user_id with
  | none => (false, "User not found", s1)
  | some u =>
      if u.role = "super_admin" then (false, "Super Admin status cannot be changed", s1)
      else if actor_role ≠ "super_admin" then
        (false, "Only Super Admin can change user status", s1)
      else
        let newStatus := !(u.is_active.getD true)
        let u2 := { u with is_active := some newStatus,
                           updated_at := some now, updated_by := some actor_user_id }
        let users2 := setKey users user_id u2
        let s2 := update_users_db s1 users2 now
        let act := if newStatus then "ENABLE_USER" else "DISABLE_USER"
        let s3 := log_audit_action s2 now actor_user_id act user_id []
        let statusText := if newStatus then "enabled" else "disabled"
        (true, "User " ++ statusText ++ " successfully", s3)

-- =========================================================================
-- Observation helpers used in the statements below.
-- =========================================================================

-- The backing store that session reads and writes actually use in a given
-- state: the GCS documents when the bucket is available, the in-memory
-- fallback map otherwise.
def sessionStore (s : AuthState) : List (String × SessionRecord) :=
  if s.gcsAvailable then s.gcsSessions else s.memSessions

-- The cache-hit condition of get_users_db, written out as a predicate.
def cacheFresh (s : AuthState) (now : Nat) : Bool :=
  match s.cacheData, s.cacheLoadedAt with
  | some _, some t => decide (now - t < 300)
  | _, _ => false

-- =========================================================================
-- Concrete states for counterexamples and witnesses.
-- =========================================================================

-- The default user directory freshly cached, no GCS bucket configured.
def seededState : AuthState :=
  { cacheData := some DEFAULT_USERS, cacheLoadedAt := some 0, gcsAvailable := false,
    gcsUsers := none, gcsSessions := [], memSessions := [], gcsAuditLog := none,
    localAuditLog := [] }

-- Cold cache, available bucket whose users document is the empty directory.
def emptyDirState : AuthState :=
  { cacheData := none, cacheLoadedAt := none, gcsAvailable := true, gcsUsers := some [],
    gcsSessions := [], memSessions := [], gcsAuditLog := none, localAuditLog := [] }

-- A deactivated readonly user, for the authenticate witness.
def bobUser : User :=
  { password := "pw", role := "readonly", name := "Bob",
    dashboards := Dashboards.list [], app_access := [], is_active := some false }

def deactivatedState : AuthState :=
  { cacheData := some [("bob", bobUser)], cacheLoadedAt := some 0, gcsAvailable := false,
    gcsUsers := none, gcsSessions := [], memSessions := [], gcsAuditLog := none,
    localAuditLog := [] }

def demoSnapshot : UserSnapshot :=
  { username := "viewer", role := "readonly", name := "Viewer User",
    dashboards := Dashboards.list ["icarus_historical"], app_access := [] }

-- An in-memory session that expired at time 10.
def expiredSessionState : AuthState :=
  { cacheData := none, cacheLoadedAt := none, gcsAvailable := false, gcsUsers := none,
    gcsSessions := [],
    memSessions := [("sess-1",
      { session_id := "sess-1", user := demoSnapshot, authenticated := true,
        created_at := 0, expires_at := some 10, remember_me := false })],
    gcsAuditLog := none, localAuditLog := [] }

-- =========================================================================
-- Helper lemmas about the association-list primitives.
-- =========================================================================

theorem getKey_setKey_self {α : Type} (l : List (String × α)) (k : String) (v : α) :
    getKey (setKey l k v) k = some v := by
  induction l with
  | nil => simp [getKey, setKey]
  | cons hd tl ih =>
      obtain ⟨k1, v1⟩ := hd
      by_cases h : k1 = k
      · simp [setKey, h, getKey]
      · simp [setKey, h, getKey, ih]

theorem getKey_delKey_self {α : Type} (l : List (String × α)) (k : String) :
    getKey (delKey l k) k = none := by
  induction l with
  | nil => simp [delKey, getKey]
  | cons hd tl ih =>
      obtain ⟨k1, v1⟩ := hd
      by_cases h : k1 = k
      · simpa [delKey, h] using ih
      · simpa [delKey, getKey, h] using ih

theorem delKey_of_getKey_none {α : Type} (l : List (String × α)) (k : String)
    (h : getKey l k = none) : delKey l k = l := by
  induction l with
  | nil => simp [delKey]
  | cons hd tl ih =>
      obtain ⟨k1, v1⟩ := hd
      by_cases hk : k1 = k
      · simp [getKey, hk] at h
      · simp [getKey, hk] at h
        simp [delKey] at ih ⊢
        exact ⟨hk, ih h⟩

theorem delKey_idem {α : Type} (l : List (String × α)) (k : String) :
    delKey (delKey l k) k = delKey l k :=
  delKey_of_getKey_none _ _ (getKey_delKey_self l k)

-- =========================================================================
-- Helper lemmas about the directory manager.
-- =========================================================================

theorem get_users_db_load_consults (s : AuthState) (now : Nat) :
    (get_users_db_load s now).2.2 = true := by
  unfold get_users_db_load
  cases h : load_users_from_gcs s <;> simp [h]

theorem get_users_db_cacheData (s : AuthState) (now : Nat) :
    (get_users_db s now).2.1.cacheData = some (get_users_db s now).1 := by
  unfold get_users_db get_users_db_load
  cases hd : s.cacheData <;> cases ht : s.cacheLoadedAt <;>
    simp [load_users_from_gcs, save_users_to_gcs]
  case none.none =>
    cases hg : s.gcsAvailable <;> cases hu : s.gcsUsers <;> simp [hg, hu]
  case none.some =>
    cases hg : s.gcsAvailable <;> cases hu : s.gcsUsers <;> simp [hg, hu]
  case some.none =>
    cases hg : s.gcsAvailable <;> cases hu : s.gcsUsers <;> simp [hg, hu]
  case some.some d t =>
    by_cases hfresh : now - t < 300
    · simp [hfresh, hd]
    · cases hg : s.gcsAvailable <;> cases hu : s.gcsUsers <;> simp [hfresh, hg, hu]

theorem get_users_db_sessions_inv (s : AuthState) (now : Nat) :
    (get_users_db s now).2.1.gcsAvailable = s.gcsAvailable
    ∧ (get_users_db s now).2.1.gcsSessions = s.gcsSessions
    ∧ (get_users_db s now).2.1.memSessions = s.memSessions := by
  unfold get_users_db get_users_db_load
  cases hd : s.cacheData <;> cases ht : s.cacheLoadedAt <;>
    simp [load_users_from_gcs, save_users_to_gcs]
  case none.none =>
    cases hg : s.gcsAvailable <;> cases hu : s.gcsUsers <;> simp [hg, hu]
  case none.some =>
    cases hg : s.gcsAvailable <;> cases hu : s.gcsUsers <;> simp [hg, hu]
  case some.none =>
    cases hg : s.gcsAvailable <;> cases hu : s.gcsUsers <;> simp [hg, hu]
  case some.some d t =>
    by_cases hfresh : now - t < 300
    · simp [hfresh]
    · cases hg : s.gcsAvailable <;> cases hu : s.gcsUsers <;> simp [hfresh, hg, hu]

-- =========================================================================
-- Claim theorems.
-- =========================================================================

/-- Claim C1, counterexample: on the seeded default directory, the legacy
administrative operation update_user called with role super_admin for the
readonly user viewer returns success, and afterwards the viewer record has
gained the role super_admin, contradicting the claim that every such call
fails and no record gains the role. -/
theorem update_user_assigns_super_admin_cex :
    (update_user seededState 0 "viewer" none (some "super_admin") none none none).1 = true
    ∧ Option.map User.role
        (getKey (get_users_db
          (update_user seededState 0 "viewer" none (some "super_admin") none none none).2.2 0).1
          "viewer")
        = some "super_admin" := by
  decide

/-- Claim C1, amended: add_user, create_user and edit_user do reject a
request for role super_admin on a target not already holding it: each call
returns success = false and leaves the directory state exactly as
get_users_db produced it, so no user record gains the role through those
three operations.  The legacy update_user performs no such check and is
excluded from the amended claim. -/
theorem no_super_admin_via_add_create_edit
    (s : AuthState) (now : Nat)
    (actor actor_role uid pw nm : String) (pwo nmo : Option String)
    (dbs : Dashboards) (dbso : Option Dashboards) (aa : Option AppAccess)
    (hTarget : Option.map User.role (getKey (get_users_db s now).1 uid)
        ≠ some "super_admin") :
    ((add_user s now uid pw "super_admin" nm dbs aa).1 = false
      ∧ (add_user s now uid pw "super_admin" nm dbs aa).2.2 = (get_users_db s now).2.1)
    ∧ ((create_user s now actor uid pw "super_admin" nm dbs aa).1 = false
      ∧ (create_user s now actor uid pw "super_admin" nm dbs aa).2.2
          = (get_users_db s now).2.1)
    ∧ ((edit_user s now actor actor_role uid pwo (some "super_admin") nmo dbso aa).1 = false
      ∧ (edit_user s now actor actor_role uid pwo (some "super_admin") nmo dbso aa).2.2
          = (get_users_db s now).2.1) := by
  refine ⟨?_, ?_, ?_⟩
  · by_cases h : (getKey (get_users_db s now).1 uid).isSome <;> simp [add_user, h]
  · by_cases h : (getKey (get_users_db s now).1 uid).isSome <;> simp [create_user, h]
  · unfold edit_user
    cases hu : getKey (get_users_db s now).1 uid with
    | none => simp [hu]
    | some u =>
        have hr : u.role ≠ "super_admin" := by
          intro h
          exact hTarget (by simp [hu, h])
        simp only [hu]
        split_ifs with c1 c2 c3 c4 <;> simp_all [truthyStr]

/-- Claim C1 witness: the amended theorem applied to the seeded directory,
target viewer (a readonly user), showing the edit_user escalation request
fails. -/
theorem no_super_admin_via_add_create_edit_w :
    (edit_user seededState 0 "admin" "super_admin" "viewer" none (some "super_admin")
        none none none).1 = false
    ∧ (add_user seededState 0 "viewer" "pw" "super_admin" "Eve"
        (Dashboards.list []) none).1 = false :=
  ⟨(no_super_admin_via_add_create_edit seededState 0 "admin" "super_admin" "viewer"
      "pw" "Eve" none none (Dashboards.list []) none none (by decide)).2.2.1,
   (no_super_admin_via_add_create_edit seededState 0 "admin" "super_admin" "viewer"
      "pw" "Eve" none none (Dashboards.list []) none none (by decide)).1.1⟩

/-- Claim C2 (code bug): on the seeded directory holding its single super
admin, the edit_user call that both changes the super admin password and
requests a role downgrade returns success = false from the
last-super-admin guard, yet the password change was already applied to the
directory that get_users_db returns afterwards, while no audit entry was
written — the failing call partially applied, contradicting the atomicity
claim. -/
theorem edit_user_partial_apply_on_failure :
    (edit_user seededState 0 "admin" "super_admin" "admin" (some "newpw") (some "admin")
        none none none).1 = false
    ∧ Option.map User.password
        (getKey (get_users_db
          (edit_user seededState 0 "admin" "super_admin" "admin" (some "newpw") (some "admin")
            none none none).2.2 0).1 "admin")
        = some "newpw"
    ∧ (edit_user seededState 0 "admin" "super_admin" "admin" (some "newpw") (some "admin")
        none none none).2.2.localAuditLog = []
    ∧ (edit_user seededState 0 "admin" "super_admin" "admin" (some "newpw") (some "admin")
        none none none).2.2.gcsAuditLog = none := by
  decide

/-- Claim C3: in any state whose directory holds the target as a
super_admin and counts exactly one active super_admin, edit_user called
with that super admin as both actor and target and requested role admin
returns success = false with the message referencing the last Super Admin,
and the state (in particular the user directory) is unchanged from what
get_users_db produced. -/
theorem edit_user_last_super_admin_guard
    (s : AuthState) (now : Nat) (uid : String)
    (hrole : Option.map User.role (getKey (get_users_db s now).1 uid) = some "super_admin")
    (hcount : count_active_super_admins (get_users_db s now).1 = 1) :
    edit_user s now uid "super_admin" uid none (some "admin") none none none
      = (false, "Cannot change role of last Super Admin", (get_users_db s now).2.1) := by
  have hc : ({ (get_users_db s now).2.1 with
      cacheData := some ((get_users_db s now).1) } : AuthState) = (get_users_db s now).2.1 := by
    have h2 := get_users_db_cacheData s now
    rw [← h2]
  unfold edit_user
  cases hu : getKey (get_users_db s now).1 uid with
  | none => simp [hu] at hrole
  | some u =>
      have hr : u.role = "super_admin" := by simpa [hu] using hrole
      simp only [hu]
      split_ifs with c1 c2 c3 c4 <;> simp_all [truthyStr]
      simp [edit_user_apply, truthyStr, hr, hcount, hc]

/-- Claim C3 witness: the guard fires on the seeded default directory when
its super admin tries to demote itself. -/
theorem edit_user_last_super_admin_guard_w :
    edit_user seededState 0 "admin" "super_admin" "admin" none (some "admin") none none none
      = (false, "Cannot change role of last Super Admin", (get_users_db seededState 0).2.1) :=
  edit_user_last_super_admin_guard seededState 0 "admin" (by decide) (by decide)

/-- Claim C4, counterexample: when the durable store holds an empty users
document and the cache is cold, get_users_db returns that empty directory,
contradicting the claim that every call returns a non-empty directory. -/
theorem get_users_db_empty_store_cex :
    (get_users_db emptyDirState 0).1 = [] := by
  decide

/-- Claim C4, amended: get_users_db never errors and follows the priority
fresh cache, then durable store, then seeded built-in defaults (which it
persists when the bucket is available and always caches); the built-in
default set is non-empty, and the result is non-empty whenever every
cached or stored directory present is itself non-empty — but a stored
empty directory document is returned as-is. -/
theorem get_users_db_priority_spec (s : AuthState) (now : Nat) :
    (∀ d t, s.cacheData = some d → s.cacheLoadedAt = some t → now - t < 300 →
        get_users_db s now = (d, s, false))
    ∧ (cacheFresh s now = false → ∀ d, load_users_from_gcs s = some d →
        get_users_db s now
          = (d, { s with cacheData := some d, cacheLoadedAt := some now }, true))
    ∧ (cacheFresh s now = false → load_users_from_gcs s = none →
        (get_users_db s now).1 = DEFAULT_USERS
        ∧ (get_users_db s now).2.1.cacheData = some DEFAULT_USERS
        ∧ (s.gcsAvailable = true → (get_users_db s now).2.1.gcsUsers = some DEFAULT_USERS))
    ∧ DEFAULT_USERS ≠ []
    ∧ ((∀ d, s.cacheData = some d → d ≠ []) → (∀ d, s.gcsUsers = some d → d ≠ []) →
        (get_users_db s now).1 ≠ []) := by
  refine ⟨?_, ?_, ?_, by simp [DEFAULT_USERS], ?_⟩
  · intro d t hd ht hfresh
    simp [get_users_db, hd, ht, hfresh]
  · intro hnf d hload
    cases hd : s.cacheData with
    | none => simp [get_users_db, hd, get_users_db_load, hload]
    | some dd =>
        cases ht : s.cacheLoadedAt with
        | none => simp [get_users_db, hd, ht, get_users_db_load, hload]
        | some t =>
            have hstale : ¬ (now - t < 300) := by
              simpa [cacheFresh, hd, ht] using hnf
            simp [get_users_db, hd, ht, hstale, get_users_db_load, hload]
  · intro hnf hload
    have hbody : get_users_db s now = get_users_db_load s now := by
      cases hd : s.cacheData with
      | none => simp [get_users_db, hd]
      | some dd =>
          cases ht : s.cacheLoadedAt with
          | none => simp [get_users_db, hd, ht]
          | some t =>
              have hstale : ¬ (now - t < 300) := by
                simpa [cacheFresh, hd, ht] using hnf
              simp [get_users_db, hd, ht, hstale]
    rw [hbody]
    unfold get_users_db_load save_users_to_gcs
    by_cases hg : s.gcsAvailable <;> simp [hload, hg]
  · intro h1 h2
    cases hd : s.cacheData with
    | none =>
        have hbody : get_users_db s now = get_users_db_load s now := by
          simp [get_users_db, hd]
        rw [hbody]
        unfold get_users_db_load save_users_to_gcs load_users_from_gcs
        by_cases hg : s.gcsAvailable
        · cases hu : s.gcsUsers with
          | none => simp [hg, hu, DEFAULT_USERS]
          | some du => simpa [hg, hu] using h2 du hu
        · simp [hg, DEFAULT_USERS]
    | some dd =>
        cases ht : s.cacheLoadedAt with
        | none =>
            have hbody : get_users_db s now = get_users_db_load s now := by
              simp [get_users_db, hd, ht]
            rw [hbody]
            unfold get_users_db_load save_users_to_gcs load_users_from_gcs
            by_cases hg : s.gcsAvailable
            · cases hu : s.gcsUsers with
              | none => simp [hg, hu, DEFAULT_USERS]
              | some du => simpa [hg, hu] using h2 du hu
            · simp [hg, DEFAULT_USERS]
        | some t =>
            by_cases hfresh : now - t < 300
            · have := h1 dd hd
              simp [get_users_db, hd, ht, hfresh, this]
            · have hbody : get_users_db s now = get_users_db_load s now := by
                simp [get_users_db, hd, ht, hfresh]
              rw [hbody]
              unfold get_users_db_load save_users_to_gcs load_users_from_gcs
              by_cases hg : s.gcsAvailable
              · cases hu : s.gcsUsers with
                | none => simp [hg, hu, DEFAULT_USERS]
                | some du => simpa [hg, hu] using h2 du hu
              · simp [hg, DEFAULT_USERS]

/-- Claim C4 witness: a fresh cache is served as-is, and on the seeded
state get_users_db yields the non-empty default directory. -/
theorem get_users_db_priority_spec_w :
    get_users_db seededState 10 = (DEFAULT_USERS, seededState, false) :=
  (get_users_db_priority_spec seededState 10).1 DEFAULT_USERS 0 rfl rfl (by decide)

/-- Claim C5: a stored session whose expiry time lies before the current
clock is reported as absent by the first load, and the load removes the
record from the backing store, on the durable-store path and the
in-memory fallback path alike. -/
theorem load_session_lazy_expiry
    (s : AuthState) (now : Nat) (sid : String) (e : Nat)
    (hexp : Option.map SessionRecord.expires_at (getKey (sessionStore s) sid)
        = some (some e))
    (hlt : e < now) :
    (load_session_from_gcs s now sid).1 = none
    ∧ getKey (sessionStore (load_session_from_gcs s now sid).2) sid = none := by
  unfold load_session_from_gcs sessionStore at *
  by_cases hg : s.gcsAvailable
  · simp only [hg, if_true] at hexp ⊢
    cases hk : getKey s.gcsSessions sid with
    | none => simp [hk] at hexp
    | some r =>
        have he : r.expires_at = some e := by simpa [hk] using hexp
        simp [hk, he, hlt, delete_session_from_gcs, hg, getKey_delKey_self]
  · simp only [hg, if_false] at hexp ⊢
    cases hk : getKey s.memSessions sid with
    | none => simp [hk] at hexp
    | some r =>
        have he : r.expires_at = some e := by simpa [hk] using hexp
        simp [hk, he, hlt, delete_session_from_gcs, hg, getKey_delKey_self]

/-- Claim C5 witness: the expired in-memory session is purged on first
read. -/
theorem load_session_lazy_expiry_w :
    (load_session_from_gcs expiredSessionState 100 "sess-1").1 = none
    ∧ getKey (sessionStore (load_session_from_gcs expiredSessionState 100 "sess-1").2)
        "sess-1" = none :=
  load_session_lazy_expiry expiredSessionState 100 "sess-1" 10 (by decide) (by decide)

/-- Claim C6: every session produced by create_session satisfies
expires_at minus created_at equals exactly the default TTL (86400 s) when
remember_me is false and exactly the remember TTL (2592000 s) when it is
true, both in the stored record and in the returned expiry value. -/
theorem create_session_ttl_exact (s : AuthState) (now : Nat) (sid : String)
    (u : UserSnapshot) :
    Option.map (fun r => r.expires_at.getD 0 - r.created_at)
        (getKey (sessionStore (create_session s now sid u false).2) sid)
      = some SESSION_TTL_DEFAULT
    ∧ Option.map (fun r => r.expires_at.getD 0 - r.created_at)
        (getKey (sessionStore (create_session s now sid u true).2) sid)
      = some SESSION_TTL_REMEMBER
    ∧ (create_session s now sid u false).1.2 = now + SESSION_TTL_DEFAULT
    ∧ (create_session s now sid u true).1.2 = now + SESSION_TTL_REMEMBER := by
  unfold create_session save_session_to_gcs sessionStore
  by_cases hg : s.gcsAvailable <;>
    simp [hg, getKey_setKey_self]

/-- Claim C7: get_user_allowed_apps returns none (unrestricted) for admin
and super_admin users unconditionally; for a readonly user it returns
none when app_access is the empty map or lacks the dashboard key, and
otherwise exactly the stored list, which may be empty. -/
theorem get_user_allowed_apps_cases (u : UserSnapshot) (did : String) :
    ((u.role = "admin" ∨ u.role = "super_admin") →
        get_user_allowed_apps (some u) did = none)
    ∧ (u.role = "readonly" →
        ((u.app_access = [] ∨ getKey u.app_access did = none) →
            get_user_allowed_apps (some u) did = none)
        ∧ ∀ apps, getKey u.app_access did = some apps →
            get_user_allowed_apps (some u) did = some apps) := by
  refine ⟨?_, ?_⟩
  · intro h
    simp [get_user_allowed_apps, h]
  · intro hr
    refine ⟨?_, ?_⟩
    · intro h
      rcases h with h | h
      · simp [get_user_allowed_apps, hr, h]
      · by_cases hempty : u.app_access = []
        · simp [get_user_allowed_apps, hr, hempty]
        · simp [get_user_allowed_apps, hr, hempty, h]
    · intro apps h
      have hne : u.app_access ≠ [] := by
        intro hh
        rw [hh] at h
        simp [getKey] at h
      simp [get_user_allowed_apps, hr, hne, h]

/-- Claim C7 witness: the readonly demo snapshot with empty app_access is
unrestricted, and an explicit empty per-dashboard list is returned
exactly (zero apps visible). -/
theorem get_user_allowed_apps_cases_w :
    get_user_allowed_apps (some demoSnapshot) "icarus_historical" = none
    ∧ get_user_allowed_apps
        (some { username := "r2", role := "readonly", name := "R2",
                dashboards := Dashboards.list ["d1"],
                app_access := [("d1", [])] }) "d1" = some [] :=
  ⟨((get_user_allowed_apps_cases demoSnapshot "icarus_historical").2 rfl).1 (Or.inl rfl),
   ((get_user_allowed_apps_cases
      { username := "r2", role := "readonly", name := "R2",
        dashboards := Dashboards.list ["d1"], app_access := [("d1", [])] } "d1").2 rfl).2
      [] (by decide)⟩

/-- Claim C8: within one process, update_users_db followed by get_users_db
within the freshness window returns exactly the written directory without
consulting the durable store; and a get_users_db call made once 300
seconds have elapsed since the last cache load, with no intervening
write, consults the durable store (third result component true). -/
theorem users_cache_freshness (s : AuthState) (d : Directory) (now now2 t : Nat) :
    (now2 - now < 300 →
        get_users_db (update_users_db s d now) now2
          = (d, update_users_db s d now, false))
    ∧ (s.cacheLoadedAt = some t → 300 ≤ now - t →
        (get_users_db s now).2.2 = true) := by
  constructor
  · intro hf
    unfold update_users_db save_users_to_gcs
    by_cases hg : s.gcsAvailable <;> simp [hg, get_users_db, hf]
  · intro ht hstale
    cases hd : s.cacheData with
    | none => simp [get_users_db, hd, ht, get_users_db_load_consults]
    | some dd =>
        have hnf : ¬ (now - t < 300) := by omega
        simp [get_users_db, hd, ht, hnf, get_users_db_load_consults]

/-- Claim C8 witness: immediate read-back of an update on the seeded
state, and a store reload once the cache is 400 seconds old. -/
theorem users_cache_freshness_w :
    get_users_db (update_users_db seededState DEFAULT_USERS 5) 10
      = (DEFAULT_USERS, update_users_db seededState DEFAULT_USERS 5, false)
    ∧ (get_users_db seededState 400).2.2 = true :=
  ⟨(users_cache_freshness seededState DEFAULT_USERS 5 10 0).1 (by decide),
   (users_cache_freshness seededState DEFAULT_USERS 400 0 0).2 rfl (by decide)⟩

/-- Claim C9: logout never raises (it is a total function here), calling
it twice leaves the same state as calling it once, the session is not
authenticated afterwards, and deleting an id with no stored session is a
no-op rather than an error. -/
theorem logout_spec (s : AuthState) (now : Nat) (sid : String) :
    logout (logout s sid) sid = logout s sid
    ∧ (is_authenticated (logout s sid) now sid).1 = false
    ∧ (getKey (sessionStore s) sid = none → logout s sid = s) := by
  by_cases hsid : sid = ""
  · subst hsid
    refine ⟨rfl, ?_, fun _ => rfl⟩
    simp [logout, is_authenticated, get_session_data]
  · unfold logout delete_session_from_gcs
    by_cases hg : s.gcsAvailable
    · refine ⟨?_, ?_, ?_⟩
      · simp [hsid, hg, delKey_idem]
      · simp [hsid, hg, is_authenticated, get_session_data, load_session_from_gcs,
              getKey_delKey_self]
      · intro h
        have h2 : getKey s.gcsSessions sid = none := by
          simpa [sessionStore, hg] using h
        simp [hsid, hg, delKey_of_getKey_none _ _ h2]
        rw [← hg]
    · refine ⟨?_, ?_, ?_⟩
      · simp [hsid, hg, delKey_idem]
      · simp [hsid, hg, is_authenticated, get_session_data, load_session_from_gcs,
              getKey_delKey_self]
      · intro h
        have h2 : getKey s.memSessions sid = none := by
          simpa [sessionStore, hg] using h
        have hg2 : s.gcsAvailable = false := by simpa using hg
        simp [hsid, hg, delKey_of_getKey_none _ _ h2]
        rw [← hg2]

/-- Claim C9 witness: double logout of the stored session equals single
logout, the session is unauthenticated afterwards, and logging out an
unknown id leaves the state untouched. -/
theorem logout_spec_w :
    logout (logout expiredSessionState "sess-1") "sess-1"
      = logout expiredSessionState "sess-1"
    ∧ (is_authenticated (logout expiredSessionState "sess-1") 0 "sess-1").1 = false
    ∧ logout expiredSessionState "nosuch" = expiredSessionState :=
  ⟨(logout_spec expiredSessionState 0 "sess-1").1,
   (logout_spec expiredSessionState 0 "sess-1").2.1,
   (logout_spec expiredSessionState 0 "nosuch").2.2 (by decide)⟩

/-- Claim C10 (implicit behavior): authenticate never consults is_active —
for a directory record deactivated by the admin panel (is_active false),
authenticating with its username and stored password still succeeds and
the created session is immediately valid. -/
theorem authenticate_ignores_is_active
    (s : AuthState) (now : Nat) (sid username pw : String) (rm : Bool)
    (hpw : Option.map User.password (getKey (get_users_db s now).1 username) = some pw)
    (_hinact : Option.map User.is_active (getKey (get_users_db s now).1 username)
        = some (some false))
    (hsid : sid ≠ "") :
    (authenticate s now sid username pw rm).1.1 = true
    ∧ (is_authenticated (authenticate s now sid username pw rm).2 now sid).1 = true := by
  unfold authenticate
  cases hu : getKey (get_users_db s now).1 username with
  | none => simp [hu] at hpw
  | some u =>
      have hp : u.password = pw := by simpa [hu] using hpw
      have hinv := get_users_db_sessions_inv s now
      simp only [hu, hp, if_pos rfl]
      unfold create_session save_session_to_gcs
      by_cases hg : s.gcsAvailable <;>
        cases rm <;>
          simp [is_authenticated, get_session_data, hsid, load_session_from_gcs,
                hinv.1, hinv.2.1, hinv.2.2, hg, getKey_setKey_self,
                SESSION_TTL_DEFAULT, SESSION_TTL_REMEMBER]

/-- Claim C10 witness: the deactivated readonly user bob still logs in
and gets a live session. -/
theorem authenticate_ignores_is_active_w :
    (authenticate deactivatedState 0 "sid-1" "bob" "pw" false).1.1 = true
    ∧ (is_authenticated (authenticate deactivatedState 0 "sid-1" "bob" "pw" false).2
        0 "sid-1").1 = true :=
  authenticate_ignores_is_active deactivatedState 0 "sid-1" "bob" "pw" false
    (by decide) (by decide) (by decide)
